import Mathlib

/-!
Verification development for the API Testing Agent (src/app.py).

The embedding translates the derivation engine (generate_test_cases), the
execution engine (execute_test, run_tests) and the report aggregator
(generate_report) into Lean.

Modelling notes:
- Python dicts with string keys are ordered association lists
  (insertion order preserved; updating an existing key keeps its position).
- The Python code builds each test case as a dict whose nested expected
  dict is shared between the nominal case and its negative variants
  (dict.copy() is shallow).  We model that nested dict as a heap cell:
  every TestCase carries expectedRef, an index into a store of
  ExpStatus values; derivation threads the store and performs the same
  in-place updates the Python code performs on the shared dict.
- The HTTP transport is an oracle parameter: a function from the
  dispatched request to either a response or a raised exception message.
- Wall-clock fields of the Python code (start_time, end_time, duration,
  execution_time) are real-time effects and are left out of the embedding;
  no claim mentions them.
- Numbers are exact: Python float arithmetic in the success-rate
  computation is modelled over the rationals, and the built-in round
  (half to even) is modelled by pyRound2.
-/

/-- Ordered association list with string keys, the model of a Python dict. -/
abbrev SDict (α : Type) := List (String × α)

/-- Lookup of the first binding of a key, the model of dict access. -/
def alookup (k : String) : SDict α → Option α
  | [] => none
  | (k2, v) :: rest => if k2 = k then some v else alookup k rest

/-- The model of `d[k] = v` on a Python dict: update the first binding of
the key in place, or append a new binding at the end. -/
def upsert (k : String) (v : α) : SDict α → SDict α
  | [] => [(k, v)]
  | (k2, v2) :: rest => if k2 = k then (k2, v) :: rest else (k2, v2) :: upsert k v rest

/-- One declared operation parameter (name, the "in" field, required flag). -/
structure Parameter where
  name : String
  loc : String
  required : Bool
deriving DecidableEq

/-- One content entry of a requestBody: its content type and the truthiness
of its schema field. -/
structure MediaType where
  contentType : String
  hasSchema : Bool
deriving DecidableEq

/-- An operation object of the contract.  `responses` is the ordered list of
declared status-code keys; `security` is the optional per-operation security
list, each requirement being the ordered list of its scheme-name keys. -/
structure Operation where
  summary : Option String
  description : Option String
  parameters : List Parameter
  responses : List String
  security : Option (List (List String))
  requestBody : List MediaType
deriving DecidableEq

/-- A security scheme object.  Absent fields are none (Python dict.get). -/
structure SecurityScheme where
  type : Option String
  name : Option String
  loc : Option String
  scheme : Option String
deriving DecidableEq

/-- The parsed contract: server URLs, ordered paths (each with its ordered
methods), the components.securitySchemes mapping, optional global security. -/
structure ApiSpec where
  servers : List String
  paths : List (String × List (String × Operation))
  securitySchemes : SDict SecurityScheme
  security : Option (List (List String))
deriving DecidableEq

/-- The value of an expected.status field: a string, or a list of strings. -/
inductive ExpStatus where
  | str (s : String)
  | list (l : List String)
deriving DecidableEq

/-- The request sub-dict of a test case.  Header and query values may be the
Python None, hence Option.  The body is an opaque JSON value. -/
structure RequestSpec where
  url : String
  headers : SDict (Option String)
  params : SDict (Option String)
  body : Option String
deriving DecidableEq

/-- A test-case dict.  `expectedRef` is the heap cell holding the shared
expected.status value.  Optional keys of the Python dict default as below. -/
structure TestCase where
  path : String
  method : String
  name : String
  description : String
  request : RequestSpec
  expectedRef : Nat
  auth_required : Bool := false
  auth_type : Option String := none
  auth_name : Option String := none
  auth_in : Option String := none
  auth_value : Option String := none
  required_params : List String := []
deriving DecidableEq


/-- str.lower() — String.toLower implemented over the character list so
that the kernel can evaluate it. -/
def strLower (s : String) : String := String.mk (s.data.map Char.toLower)

/-- str.upper() — String.toUpper implemented over the character list so
that the kernel can evaluate it. -/
def strUpper (s : String) : String := String.mk (s.data.map Char.toUpper)

/-- Reading test_case.expected.status after derivation: a store lookup. -/
def resolvedStatus (store : List ExpStatus) (tc : TestCase) : ExpStatus :=
  store.getD tc.expectedRef (ExpStatus.str "")

def supportedMethods : List String := ["get", "post", "put", "delete", "patch"]

/-- First declared response code, with the "200" default. -/
def primaryStatus (op : Operation) : String :=
  match op.responses with
  | [] => "200"
  | s :: _ => s

/-- Security resolution of generate_test_cases: operation security, falling
back to the global security, then the first key of the first requirement;
yields (auth_required, auth_type, auth_name, auth_in).  auth_required is set
as soon as a truthy scheme name is found, even when the scheme is missing
from securitySchemes or has an unsupported type. -/
def resolveSecurity (spc : ApiSpec) (op : Operation) : Bool × Option String × Option String × Option String :=
  let security := op.security.getD (spc.security.getD [])
  let authScheme : Option String :=
    match security with
    | [] => none
    | req :: _ =>
      match req with
      | [] => none
      | s :: _ => some s
  match authScheme with
  | none => (false, none, none, none)
  | some s =>
    if s = "" then (false, none, none, none)
    else
      match alookup s spc.securitySchemes with
      | none => (true, none, none, none)
      | some sch =>
        if sch.type = some "apiKey" then (true, some "apiKey", sch.name, sch.loc)
        else if sch.type = some "http" ∧ sch.scheme = some "bearer" then (true, some "bearer", none, none)
        else (true, none, none, none)

/-- The parameters loop: populate query params and header keys with unset
values, collect required parameter names; yields (params, headers, required). -/
def paramFold (ps : List Parameter) : SDict (Option String) × SDict (Option String) × List String :=
  ps.foldl
    (fun acc param =>
      (if param.loc = "query" then upsert param.name none acc.1 else acc.1,
       if param.loc = "header" then upsert param.name none acc.2.1 else acc.2.1,
       if param.required then acc.2.2 ++ [param.name] else acc.2.2))
    ([], [], [])

/-- The requestBody loop: every content entry sets the Content-Type header;
a truthy schema sets the body to the empty-object placeholder. -/
def bodyFold (mts : List MediaType) (headers : SDict (Option String)) : SDict (Option String) × Option String :=
  mts.foldl
    (fun acc mt =>
      (upsert "Content-Type" (some mt.contentType) acc.1,
       if mt.hasSchema then some "\x7b\x7d" else acc.2))
    (headers, none)

/-- The nominal test case built for one operation; `ref` is its fresh
expected cell. -/
def nominalCase (spc : ApiSpec) (base_url p m : String) (op : Operation) (ref : Nat) : TestCase :=
  let auth := resolveSecurity spc op
  let pf := paramFold op.parameters
  let bf := bodyFold op.requestBody pf.2.1
  { path := p
    method := strUpper m
    name := op.summary.getD (strUpper m ++ " " ++ p)
    description := op.description.getD ""
    request := { url := base_url ++ p, headers := bf.1, params := pf.1, body := bf.2 }
    expectedRef := ref
    auth_required := auth.1
    auth_type := auth.2.1
    auth_name := auth.2.2.1
    auth_in := auth.2.2.2
    auth_value := none
    required_params := pf.2.2 }

/-- The missing-required-parameters variant: a shallow copy of the nominal
dict with a renamed test, a copied request whose params are rebound to the
empty dict.  The expected cell is shared (same expectedRef). -/
def missingVariantOf (nom : TestCase) : TestCase :=
  { nom with
    name := nom.name ++ " - Missing Required Parameters"
    request := { nom.request with params := [] } }

/-- The invalid-authentication variant: a shallow copy of the nominal dict
with a renamed test, a copied request, and the sentinel auth_value.  The
expected cell is shared (same expectedRef). -/
def invalidAuthVariantOf (nom : TestCase) : TestCase :=
  { nom with
    name := nom.name ++ " - Invalid Authentication"
    auth_value := some "invalid_auth_value" }

/-- Derivation for one path/method pair: skip unsupported methods; otherwise
emit the nominal case and its variants, threading the in-place writes to the
shared expected cell ("400" for the missing-params variant, then "401" for
the invalid-auth variant). -/
def deriveOp (spc : ApiSpec) (base_url p m : String) (op : Operation) (store : List ExpStatus) : List TestCase × List ExpStatus :=
  if strLower m ∈ supportedMethods then
    let nom := nominalCase spc base_url p m op store.length
    let store1 := store ++ [ExpStatus.str (primaryStatus op)]
    let store2 := if nom.required_params ≠ [] then store1.set nom.expectedRef (ExpStatus.str "400") else store1
    let store3 := if nom.auth_required then store2.set nom.expectedRef (ExpStatus.str "401") else store2
    ([nom]
       ++ (if nom.required_params ≠ [] then [missingVariantOf nom] else [])
       ++ (if nom.auth_required then [invalidAuthVariantOf nom] else []),
     store3)
  else ([], store)

/-- The contract paths flattened to (path, method, operation) triples in
document order. -/
def flatOps (spc : ApiSpec) : List (String × String × Operation) :=
  spc.paths.flatMap (fun pp => pp.2.map (fun mo => (pp.1, mo.1, mo.2)))

/-- generate_test_cases of src/app.py: derive the ordered case sequence and
the final state of the expected cells. -/
def generate_test_cases (spc : ApiSpec) : List TestCase × List ExpStatus :=
  let base_url := spc.servers.headD ""
  (flatOps spc).foldl
    (fun acc pmo =>
      let step := deriveOp spc base_url pmo.1 pmo.2.1 pmo.2.2 acc.2
      (acc.1 ++ step.1, step.2))
    ([], [])

/-- An HTTP response as seen by the client: status code, headers, body text.
The body is a character list so that slicing is the Python text[:1000]. -/
structure HttpResponse where
  status_code : Nat
  headers : SDict String
  text : List Char
deriving DecidableEq

/-- The request handed to the HTTP library: url, lowercased method, headers,
query params, and the JSON body when one is attached. -/
structure SentRequest where
  url : String
  method : String
  headers : SDict (Option String)
  params : SDict (Option String)
  body : Option String
deriving DecidableEq

/-- The network oracle: what one dispatch of a request does — either a
response, or a raised exception with its message. -/
abbrev Transport := SentRequest → Except String HttpResponse

/-- The externally supplied credential mapping (absent values are empty). -/
structure AuthValues where
  apiKey : String
  bearer : String
deriving DecidableEq

/-- The response sub-dict recorded on a result (body already truncated). -/
structure RespInfo where
  status_code : Nat
  headers : SDict String
  body : List Char
deriving DecidableEq

/-- A result dict of execute_test / run_tests.  Keys the Python code leaves
absent on a given path are none here. -/
structure ExecResult where
  test_name : String
  path : String
  method : String
  status : String
  passed : Bool
  request : Option SentRequest := none
  response : Option RespInfo := none
  error : Option String := none
deriving DecidableEq

/-- Request preparation of execute_test: copy headers and params, then fill
in the credentials from auth_values when the case requires authentication
(the sentinel auth_value stored on the case is never consulted).  The
recorded request keeps the case body unconditionally.  A Python None
auth_name key is modelled by the empty-string key. -/
def build_request (tc : TestCase) (auth_values : AuthValues) : SentRequest :=
  let headers := tc.request.headers
  let params := tc.request.params
  let hp :=
    if tc.auth_required then
      if tc.auth_type = some "apiKey" then
        if tc.auth_in = some "header" then
          (upsert (tc.auth_name.getD "") (some auth_values.apiKey) headers, params)
        else if tc.auth_in = some "query" then
          (headers, upsert (tc.auth_name.getD "") (some auth_values.apiKey) params)
        else (headers, params)
      else if tc.auth_type = some "bearer" then
        (upsert "Authorization" (some ("Bearer " ++ auth_values.bearer)) headers, params)
      else (headers, params)
    else (headers, params)
  { url := tc.request.url
    method := strLower tc.method
    headers := hp.1
    params := hp.2
    body := tc.request.body }

/-- The request actually dispatched: the JSON body is attached only for
post/put/patch (requests.get and requests.delete receive no json kwarg). -/
def dispatched_request (tc : TestCase) (auth_values : AuthValues) : SentRequest :=
  let r := build_request tc auth_values
  { r with body := if r.method ∈ ["post", "put", "patch"] then r.body else none }

/-- The message of the AttributeError raised when the method matched no
branch and the code touches the still-None response object. -/
def noneTypeError : String := "AttributeError: NoneType object has no attribute status_code"

/-- execute_test of src/app.py.  The try block prepares the request, records
it on the result, dispatches for a supported method, truncates the response
body to 1000 characters, and compares the observed status (as a string)
against the shared expected cell; str and list expected values use equality
and containment respectively.  Any raise inside the try block — a transport
failure, or the AttributeError on an unsupported method — is caught and
produces the Error result with the message recorded. -/
def execute_test (store : List ExpStatus) (transport : Transport) (tc : TestCase) (auth_values : AuthValues) : ExecResult :=
  let req := build_request tc auth_values
  if strLower tc.method ∈ supportedMethods then
    match transport (dispatched_request tc auth_values) with
    | Except.error e =>
      { test_name := tc.name, path := tc.path, method := tc.method
        status := "Error", passed := false
        request := some req, response := none, error := some e }
    | Except.ok resp =>
      let info : RespInfo :=
        { status_code := resp.status_code
          headers := resp.headers
          body := resp.text.take 1000 }
      let passed :=
        match resolvedStatus store tc with
        | ExpStatus.str s => toString resp.status_code = s
        | ExpStatus.list l => toString resp.status_code ∈ l
      { test_name := tc.name, path := tc.path, method := tc.method
        status := if passed then "Passed" else "Failed", passed := passed
        request := some req, response := some info, error := none }
  else
    { test_name := tc.name, path := tc.path, method := tc.method
      status := "Error", passed := false
      request := some req, response := none, error := some noneTypeError }

/-- The fallback result run_tests builds when collecting a future raises. -/
def error_result (tc : TestCase) (e : String) : ExecResult :=
  { test_name := tc.name, path := tc.path, method := tc.method
    status := "Error", passed := false
    request := none, response := none, error := some e }

/-- Collect one future: its value, or the fallback result on a raise. -/
def collect_one (attempt : TestCase → Except String ExecResult) (tc : TestCase) : ExecResult :=
  match attempt tc with
  | Except.ok r => r
  | Except.error e => error_result tc e

/-- run_tests of src/app.py, over an abstract per-case attempt (what
future.result() returns or raises for a case).  The futures dict is iterated
in submission order — the order of test_cases — and future.result() waits
for each case in turn, so the collected list follows the original order.
completion_order records in which order the pool happened to finish the
cases; it never enters the data flow. -/
def run_tests_with (_completion_order : List Nat) (attempt : TestCase → Except String ExecResult) (test_cases : List TestCase) : List ExecResult :=
  test_cases.map (collect_one attempt)

/-- run_tests instantiated with the real worker body: execute_test is total
in the model, so no future raises. -/
def run_tests (completion_order : List Nat) (store : List ExpStatus) (transport : Transport) (auth_values : AuthValues) (test_cases : List TestCase) : List ExecResult :=
  run_tests_with completion_order (fun tc => Except.ok (execute_test store transport tc auth_values)) test_cases

/-- Python round(x, 2): round half to even at two decimal places, over ℚ. -/
def pyRound2 (q : ℚ) : ℚ :=
  let scaled := q * 100
  let n : ℤ := ⌊scaled⌋
  let frac := scaled - n
  let r : ℤ :=
    if frac < 1 / 2 then n
    else if 1 / 2 < frac then n + 1
    else if n % 2 = 0 then n else n + 1
  (r : ℚ) / 100

/-- The summary block of a report. -/
structure Summary where
  total_tests : Nat
  passed_tests : Nat
  failed_tests : Nat
  success_rate : ℚ
deriving DecidableEq

/-- One endpoint group of a report. -/
structure EndpointGroup where
  total : Nat
  passed : Nat
  failed : Nat
  tests : List ExecResult
deriving DecidableEq

/-- The report object. -/
structure Report where
  summary : Summary
  endpoint_results : SDict EndpointGroup
  results : List ExecResult
deriving DecidableEq

/-- The grouping key: "METHOD path" from the fields of the result. -/
def endpointKey (r : ExecResult) : String := r.method ++ " " ++ r.path

/-- The group a result is folded into before it existed. -/
def emptyGroup : EndpointGroup := { total := 0, passed := 0, failed := 0, tests := [] }

/-- Account one result into a group: bump total, bump passed or failed by
the passed flag, append the result to the tests of the group. -/
def bumpGroup (r : ExecResult) (g : EndpointGroup) : EndpointGroup :=
  { total := g.total + 1
    passed := if r.passed then g.passed + 1 else g.passed
    failed := if r.passed then g.failed else g.failed + 1
    tests := g.tests ++ [r] }

/-- One iteration of the grouping loop of generate_report. -/
def report_step (acc : SDict EndpointGroup) (r : ExecResult) : SDict EndpointGroup :=
  upsert (endpointKey r) (bumpGroup r ((alookup (endpointKey r) acc).getD emptyGroup)) acc

/-- generate_report of src/app.py: summary counts, success rate, and the
per-endpoint grouping in first-seen key order. -/
def generate_report (results : List ExecResult) : Report :=
  let total_tests := results.length
  let passed_tests := (results.filter (fun r => r.passed)).length
  let failed_tests := total_tests - passed_tests
  let success_rate : ℚ :=
    if 0 < total_tests then pyRound2 ((passed_tests : ℚ) / (total_tests : ℚ) * 100) else 0
  { summary :=
      { total_tests := total_tests
        passed_tests := passed_tests
        failed_tests := failed_tests
        success_rate := success_rate }
    endpoint_results := results.foldl report_step []
    results := results }

/-- The C1 scenario contract: one POST /items operation with one required
query parameter pageitself, apiKey security, and a declared 201 response. -/
def c1_spec : ApiSpec :=
  { servers := ["http://api.example.com"]
    paths :=
      [("/items",
        [("post",
          { summary := none
            description := none
            parameters := [{ name := "page", loc := "query", required := true }]
            responses := ["201"]
            security := some [["ApiKeyAuth"]]
            requestBody := [] })])]
    securitySchemes :=
      [("ApiKeyAuth",
        { type := some "apiKey", name := some "X-API-Key", loc := some "header", scheme := none })]
    security := none }

/-- Claim C1 (code bug): for the contract with one POST /items operation, a required
query parameter and apiKey security, derivation does yield exactly 3 cases
in the order nominal, missing-required-params, invalid-auth — but because
the variants share the nested expected dict of the nominal case (dict.copy() is
shallow), the in-place writes of "400" and then "401" hit all three cases:
every case ends with expectedStatus "401", not the claimed
declared / "400" / "401". -/
theorem c1_shared_expected_dict_corrupts_statuses :
    ((generate_test_cases c1_spec).1.map (fun tc => tc.name))
        = ["POST /items", "POST /items - Missing Required Parameters",
           "POST /items - Invalid Authentication"]
      ∧ ((generate_test_cases c1_spec).1.map (resolvedStatus (generate_test_cases c1_spec).2))
        = [ExpStatus.str "401", ExpStatus.str "401", ExpStatus.str "401"]
      ∧ (c1_spec.paths.map (fun pp => pp.2.map (fun mo => mo.2.responses)))
        = [[["201"]]] := by
  decide

/-- The C2 scenario contract: one GET /things operation with one required
query parameter and a declared 200 response, no security. -/
def c2_spec : ApiSpec :=
  { servers := []
    paths :=
      [("/things",
        [("get",
          { summary := none
            description := none
            parameters := [{ name := "q", loc := "query", required := true }]
            responses := ["200"]
            security := none
            requestBody := [] })])]
    securitySchemes := []
    security := none }

/-- Claim C2 (code bug): emitting the missing-required-params variant does
modify its nominal case.  For the C2 contract, whose only operation declares
response 200 and one required parameter, the nominal case ends with the
shared expected cell holding "400": the write that was meant for the variant
also retargeted the nominal case, because both reference one expected dict. -/
theorem c2_nominal_case_mutated_by_variant :
    ((generate_test_cases c2_spec).1.map (fun tc => tc.name))
        = ["GET /things", "GET /things - Missing Required Parameters"]
      ∧ ((generate_test_cases c2_spec).1.map (resolvedStatus (generate_test_cases c2_spec).2))
        = [ExpStatus.str "400", ExpStatus.str "400"]
      ∧ (c2_spec.paths.map (fun pp => pp.2.map (fun mo => mo.2.responses)))
        = [[["200"]]] := by
  decide

/-- A placeholder test case used only as the default of list indexing. -/
def dummyCase : TestCase :=
  { path := "", method := "", name := "", description := ""
    request := { url := "", headers := [], params := [], body := none }
    expectedRef := 0 }

/-- The invalid-auth variant derived from the C1 contract (third case). -/
def c1_invalid_auth_case : TestCase := (generate_test_cases c1_spec).1.getD 2 dummyCase

/-- Claim C3 (code bug): executing the derived invalid-auth variant does not
dispatch the sentinel credential recorded on the variant.  The variant
carries auth_value "invalid_auth_value", yet the request recorded by
execute_test (identical to the dispatched one) carries the externally
supplied API key "real-secret" in the X-API-Key header: execute_test fills
credentials exclusively from auth_values and never reads auth_value. -/
theorem c3_sentinel_credential_never_dispatched :
    c1_invalid_auth_case.auth_value = some "invalid_auth_value"
      ∧ (execute_test (generate_test_cases c1_spec).2
            (fun _ => Except.error "connection refused")
            c1_invalid_auth_case
            { apiKey := "real-secret", bearer := "" }).request
        = some
            { url := "http://api.example.com/items"
              method := "post"
              headers := [("X-API-Key", some "real-secret")]
              params := [("page", none)]
              body := none } := by
  decide

/-- Claim C4 (confirmed): run_tests returns exactly one ExecutionResult per
TestCase with none skipped, in the original derivation order of the cases,
and the completion order of the concurrently executing cases never enters
the output: collection iterates the futures dict in submission order and
blocks on each future in turn. -/
theorem c4_results_in_derivation_order
    (s1 s2 : List Nat) (attempt : TestCase → Except String ExecResult)
    (tcs : List TestCase) :
    run_tests_with s1 attempt tcs = run_tests_with s2 attempt tcs
      ∧ (run_tests_with s1 attempt tcs).length = tcs.length
      ∧ ∀ i : Nat, ∀ h : i < tcs.length,
          (run_tests_with s1 attempt tcs).get ⟨i, by simpa [run_tests_with] using h⟩
            = collect_one attempt (tcs.get ⟨i, h⟩) := by
  refine ⟨rfl, by simp [run_tests_with], ?_⟩
  intro i h
  simp [run_tests_with]

/-- A placeholder test case used only as the default of list indexing. -/
def sampleAttempt : TestCase → Except String ExecResult :=
  fun _ => Except.error "worker crashed"

/-- Witness for C4 at a concrete schedule, attempt and case list. -/
theorem c4_results_in_derivation_order_witness :
    (run_tests_with [0] sampleAttempt [dummyCase]).get ⟨0, by decide⟩
      = collect_one sampleAttempt dummyCase :=
  (c4_results_in_derivation_order [0] [1] sampleAttempt [dummyCase]).2.2 0 (by decide)

/-- Claim C10 (confirmed): a TestCase whose lowercased method is not one of
the five supported verbs never produces Passed or Failed: the response stays
None, touching it raises the AttributeError caught by the per-case handler,
so the outcome is Error with passed false and no response — and no HTTP
request is issued, witnessed by the result being identical for any two
transports. -/
theorem c10_unsupported_method_never_dispatches
    (store : List ExpStatus) (t1 t2 : Transport) (auth : AuthValues) (tc : TestCase)
    (hm : strLower tc.method ∉ supportedMethods) :
    (execute_test store t1 tc auth).status = "Error"
      ∧ (execute_test store t1 tc auth).passed = false
      ∧ (execute_test store t1 tc auth).response = none
      ∧ (execute_test store t1 tc auth).error = some noneTypeError
      ∧ execute_test store t1 tc auth = execute_test store t2 tc auth := by
  simp [execute_test, hm]

/-- One simplified-configuration test-case entry of the Direct Input path. -/
structure DirectTC where
  name : Option String
  headers : SDict (Option String)
  query_params : SDict (Option String)
  body : Option String
  expected_status : Option String
deriving DecidableEq

/-- One api entry of the simplified declarative configuration. -/
structure DirectApi where
  endpoint : String
  method : Option String
  auth : Option String
  test_cases : List DirectTC
deriving DecidableEq

/-- Direct Input test-case construction of src/app.py: every configured case
becomes a TestCase with its own fresh expected cell; the method string is
taken from the configuration unchecked; auth api_key maps to the X-API-Key
header scheme, bearer_token to bearer, any other truthy value only sets
auth_required. -/
def direct_input_cases (base_url : Option String) (apis : List DirectApi) : List TestCase × List ExpStatus :=
  let base := base_url.getD "http://localhost:8000"
  apis.foldl
    (fun acc api =>
      let method := api.method.getD "GET"
      api.test_cases.foldl
        (fun acc2 tc =>
          let case0 : TestCase :=
            { path := api.endpoint
              method := strUpper method
              name := tc.name.getD (method ++ " " ++ api.endpoint)
              description := ""
              request :=
                { url := base ++ api.endpoint
                  headers := tc.headers
                  params := tc.query_params
                  body := tc.body }
              expectedRef := acc2.2.length
              auth_required := match api.auth with | some a => a != "" | none => false
              auth_type :=
                if api.auth = some "api_key" then some "apiKey"
                else if api.auth = some "bearer_token" then some "bearer"
                else none
              auth_name := if api.auth = some "api_key" then some "X-API-Key" else none
              auth_in := if api.auth = some "api_key" then some "header" else none
              auth_value := none
              required_params := [] }
          (acc2.1 ++ [case0], acc2.2 ++ [ExpStatus.str (tc.expected_status.getD "200")]))
        acc)
    ([], [])

/-- A Direct Input configuration carrying an arbitrary method string. -/
def c10_config : List DirectApi :=
  [{ endpoint := "/users"
     method := some "OPTIONS"
     auth := none
     test_cases :=
       [{ name := some "options probe"
          headers := []
          query_params := []
          body := none
          expected_status := some "200" }] }]

/-- The test case built by the Direct Input path from c10_config. -/
def c10_case : TestCase := (direct_input_cases none c10_config).1.getD 0 dummyCase

/-- Witness for C10: the OPTIONS case built by the Direct Input path. -/
theorem c10_unsupported_method_never_dispatches_witness :
    strLower c10_case.method ∉ supportedMethods
      ∧ ((execute_test (direct_input_cases none c10_config).2 (fun _ => Except.error "t1") c10_case { apiKey := "", bearer := "" }).status = "Error"
          ∧ (execute_test (direct_input_cases none c10_config).2 (fun _ => Except.error "t1") c10_case { apiKey := "", bearer := "" }).passed = false
          ∧ (execute_test (direct_input_cases none c10_config).2 (fun _ => Except.error "t1") c10_case { apiKey := "", bearer := "" }).response = none
          ∧ (execute_test (direct_input_cases none c10_config).2 (fun _ => Except.error "t1") c10_case { apiKey := "", bearer := "" }).error = some noneTypeError
          ∧ execute_test (direct_input_cases none c10_config).2 (fun _ => Except.error "t1") c10_case { apiKey := "", bearer := "" }
              = execute_test (direct_input_cases none c10_config).2 (fun _ => Except.ok { status_code := 200, headers := [], text := [] }) c10_case { apiKey := "", bearer := "" }) :=
  ⟨by decide,
   c10_unsupported_method_never_dispatches (direct_input_cases none c10_config).2
     (fun _ => Except.error "t1")
     (fun _ => Except.ok { status_code := 200, headers := [], text := [] })
     { apiKey := "", bearer := "" } c10_case (by decide)⟩

/-- Claim C5 (confirmed): a transport-level failure during dispatch yields
the Error outcome with no httpStatus, the failure description as the error
message, and passed false; inserting such a result anywhere in a result
sequence leaves the passed count unchanged and raises the failed count by
one; and a run over any case list still returns one result per case. -/
theorem c5_transport_failure_isolated
    (store : List ExpStatus) (transport : Transport) (auth : AuthValues)
    (tc : TestCase) (e : String)
    (hm : strLower tc.method ∈ supportedMethods)
    (hfail : transport (dispatched_request tc auth) = Except.error e) :
    (execute_test store transport tc auth).status = "Error"
      ∧ (execute_test store transport tc auth).passed = false
      ∧ (execute_test store transport tc auth).response = none
      ∧ (execute_test store transport tc auth).error = some e
      ∧ (∀ pre post : List ExecResult,
          (generate_report (pre ++ execute_test store transport tc auth :: post)).summary.passed_tests
              = (generate_report (pre ++ post)).summary.passed_tests
            ∧ (generate_report (pre ++ execute_test store transport tc auth :: post)).summary.failed_tests
              = (generate_report (pre ++ post)).summary.failed_tests + 1)
      ∧ (∀ sched tcs, (run_tests sched store transport auth tcs).length = tcs.length) := by
  have hres : execute_test store transport tc auth =
      { test_name := tc.name, path := tc.path, method := tc.method
        status := "Error", passed := false
        request := some (build_request tc auth), response := none, error := some e } := by
    simp [execute_test, hm, hfail]
  refine ⟨by rw [hres], by rw [hres], by rw [hres], by rw [hres], ?_, ?_⟩
  · intro pre post
    constructor
    · simp [generate_report, hres, List.filter_append, List.filter_cons]
    · have hp1 := List.length_filter_le (fun r => r.passed) pre
      have hp2 := List.length_filter_le (fun r => r.passed) post
      simp [generate_report, hres, List.filter_append, List.filter_cons, List.length_append]
      omega
  · intro sched tcs
    simp [run_tests, run_tests_with]

/-- The nominal case derived from the C1 contract (first case). -/
def c1_nominal_case : TestCase := (generate_test_cases c1_spec).1.getD 0 dummyCase

/-- A transport on which every dispatch raises. -/
def refusingTransport : Transport := fun _ => Except.error "connection refused"

/-- Witness for C5: the C1 nominal case against a refusing transport. -/
theorem c5_transport_failure_isolated_witness :
    strLower c1_nominal_case.method ∈ supportedMethods
      ∧ (execute_test (generate_test_cases c1_spec).2 refusingTransport c1_nominal_case { apiKey := "k", bearer := "" }).status = "Error"
      ∧ (execute_test (generate_test_cases c1_spec).2 refusingTransport c1_nominal_case { apiKey := "k", bearer := "" }).error = some "connection refused"
      ∧ (execute_test (generate_test_cases c1_spec).2 refusingTransport c1_nominal_case { apiKey := "k", bearer := "" }).passed = false :=
  ⟨by decide,
   (c5_transport_failure_isolated (generate_test_cases c1_spec).2 refusingTransport
      { apiKey := "k", bearer := "" } c1_nominal_case "connection refused" (by decide) rfl).1,
   (c5_transport_failure_isolated (generate_test_cases c1_spec).2 refusingTransport
      { apiKey := "k", bearer := "" } c1_nominal_case "connection refused" (by decide) rfl).2.2.2.1,
   (c5_transport_failure_isolated (generate_test_cases c1_spec).2 refusingTransport
      { apiKey := "k", bearer := "" } c1_nominal_case "connection refused" (by decide) rfl).2.1⟩

/-- Claim C9 (confirmed): when an executed case receives an HTTP response,
the stored body is response.text truncated at 1000 characters: a prefix of
the text, of length at most 1000, and the whole text when it has at most
1000 characters. -/
theorem c9_response_body_truncated
    (store : List ExpStatus) (transport : Transport) (auth : AuthValues)
    (tc : TestCase) (resp : HttpResponse)
    (hm : strLower tc.method ∈ supportedMethods)
    (hresp : transport (dispatched_request tc auth) = Except.ok resp) :
    ∃ info : RespInfo,
      (execute_test store transport tc auth).response = some info
        ∧ info.body = resp.text.take 1000
        ∧ info.body.length ≤ 1000
        ∧ (∃ rest, resp.text = info.body ++ rest)
        ∧ (resp.text.length ≤ 1000 → info.body = resp.text) := by
  refine ⟨{ status_code := resp.status_code, headers := resp.headers, body := resp.text.take 1000 }, ?_, rfl, ?_, ?_, ?_⟩
  · simp [execute_test, hm, hresp]
  · rw [List.length_take]
    exact min_le_left _ _
  · exact ⟨resp.text.drop 1000, (List.take_append_drop 1000 resp.text).symm⟩
  · intro h
    exact List.take_of_length_le h

/-- A transport answering 201 with a short body. -/
def okTransport : Transport :=
  fun _ => Except.ok { status_code := 201, headers := [], text := ['o', 'k'] }

/-- Witness for C9: the C1 nominal case against a responding transport. -/
theorem c9_response_body_truncated_witness :
    strLower c1_nominal_case.method ∈ supportedMethods
      ∧ ∃ info : RespInfo,
          (execute_test (generate_test_cases c1_spec).2 okTransport c1_nominal_case { apiKey := "k", bearer := "" }).response = some info
            ∧ info.body = (['o', 'k'] : List Char).take 1000
            ∧ info.body.length ≤ 1000
            ∧ (∃ rest, (['o', 'k'] : List Char) = info.body ++ rest)
            ∧ ((['o', 'k'] : List Char).length ≤ 1000 → info.body = (['o', 'k'] : List Char)) :=
  ⟨by decide,
   c9_response_body_truncated (generate_test_cases c1_spec).2 okTransport
     { apiKey := "k", bearer := "" } c1_nominal_case
     { status_code := 201, headers := [], text := ['o', 'k'] } (by decide) rfl⟩

/-- The nominal case deriveOp builds for its inputs. -/
def nomOf (spc : ApiSpec) (base_url p m : String) (op : Operation) (store : List ExpStatus) : TestCase :=
  nominalCase spc base_url p m op store.length

/-- Two test cases whose names have different lengths are different. -/
theorem ne_of_name_length {a b : TestCase} (h : a.name.length ≠ b.name.length) : a ≠ b :=
  fun he => h (congrArg (fun t => t.name.length) he)

/-- The missing-required-params variant is never the nominal case itself. -/
theorem missingVariant_ne_nom (nom : TestCase) : missingVariantOf nom ≠ nom := by
  apply ne_of_name_length
  have h30 : (" - Missing Required Parameters" : String).length = 30 := rfl
  simp [missingVariantOf, String.length_append, h30]

/-- The invalid-auth variant is never the nominal case itself. -/
theorem invalidVariant_ne_nom (nom : TestCase) : invalidAuthVariantOf nom ≠ nom := by
  apply ne_of_name_length
  have h25 : (" - Invalid Authentication" : String).length = 25 := rfl
  simp [invalidAuthVariantOf, String.length_append, h25]

/-- The two negative variants of one nominal case are different. -/
theorem missingVariant_ne_invalid (nom : TestCase) : missingVariantOf nom ≠ invalidAuthVariantOf nom := by
  apply ne_of_name_length
  have h30 : (" - Missing Required Parameters" : String).length = 30 := rfl
  have h25 : (" - Invalid Authentication" : String).length = 25 := rfl
  simp [missingVariantOf, invalidAuthVariantOf, String.length_append, h30, h25]

/-- Claim C8 (as amended): for every supported operation, derivation emits
the nominal case followed by the missing-required-params variant exactly
when the nominal case has at least one required parameter, followed by the
invalid-auth variant exactly when the auth_required flag is set on the
nominal case — the flag the code raises for any nonempty resolved scheme
name, which is wider than the authRequirement annotation of the spec
(auth_type, auth_name, auth_in), recorded only for apiKey and bearer
schemes. -/
theorem c8_variant_emission_iff
    (spc : ApiSpec) (base_url p m : String) (op : Operation) (store : List ExpStatus)
    (hm : strLower m ∈ supportedMethods) :
    (deriveOp spc base_url p m op store).1
        = [nomOf spc base_url p m op store]
            ++ (if (nomOf spc base_url p m op store).required_params ≠ [] then
                  [missingVariantOf (nomOf spc base_url p m op store)] else [])
            ++ (if (nomOf spc base_url p m op store).auth_required = true then
                  [invalidAuthVariantOf (nomOf spc base_url p m op store)] else [])
      ∧ (missingVariantOf (nomOf spc base_url p m op store) ∈ (deriveOp spc base_url p m op store).1
          ↔ (nomOf spc base_url p m op store).required_params ≠ [])
      ∧ (invalidAuthVariantOf (nomOf spc base_url p m op store) ∈ (deriveOp spc base_url p m op store).1
          ↔ (nomOf spc base_url p m op store).auth_required = true) := by
  have hshape : (deriveOp spc base_url p m op store).1
      = [nomOf spc base_url p m op store]
          ++ (if (nomOf spc base_url p m op store).required_params ≠ [] then
                [missingVariantOf (nomOf spc base_url p m op store)] else [])
          ++ (if (nomOf spc base_url p m op store).auth_required = true then
                [invalidAuthVariantOf (nomOf spc base_url p m op store)] else []) := by
    simp [deriveOp, nomOf, hm]
  refine ⟨hshape, ⟨?_, ?_⟩, ⟨?_, ?_⟩⟩
  · intro hmem
    by_contra hreq
    rw [hshape, if_neg (not_not_intro hreq)] at hmem
    by_cases hauth : (nomOf spc base_url p m op store).auth_required = true
    · rw [if_pos hauth] at hmem
      simp at hmem
      rcases hmem with h1 | h2
      · exact missingVariant_ne_nom _ h1
      · exact missingVariant_ne_invalid _ h2
    · rw [if_neg hauth] at hmem
      simp at hmem
      exact missingVariant_ne_nom _ hmem
  · intro hreq
    rw [hshape, if_pos hreq]
    simp
  · intro hmem
    by_contra hauth
    rw [hshape, if_neg hauth] at hmem
    by_cases hreq : (nomOf spc base_url p m op store).required_params ≠ []
    · rw [if_pos hreq] at hmem
      simp at hmem
      rcases hmem with h1 | h2
      · exact invalidVariant_ne_nom _ h1
      · exact missingVariant_ne_invalid _ h2.symm
    · rw [if_neg hreq] at hmem
      simp at hmem
      exact invalidVariant_ne_nom _ hmem
  · intro hauth
    rw [hshape, if_pos hauth]
    simp

/-- The C1 operation on its own, for the C8 witness. -/
def c8_op : Operation :=
  { summary := none
    description := none
    parameters := [{ name := "page", loc := "query", required := true }]
    responses := ["201"]
    security := some [["ApiKeyAuth"]]
    requestBody := [] }

/-- Witness for C8: the C1 operation.  Its nominal case has a required
parameter and the auth annotation, so both variants are emitted. -/
theorem c8_variant_emission_iff_witness :
    strLower "post" ∈ supportedMethods
      ∧ (deriveOp c1_spec "http://api.example.com" "/items" "post" c8_op []).1
          = [nomOf c1_spec "http://api.example.com" "/items" "post" c8_op []]
              ++ (if (nomOf c1_spec "http://api.example.com" "/items" "post" c8_op []).required_params ≠ [] then
                    [missingVariantOf (nomOf c1_spec "http://api.example.com" "/items" "post" c8_op [])] else [])
              ++ (if (nomOf c1_spec "http://api.example.com" "/items" "post" c8_op []).auth_required = true then
                    [invalidAuthVariantOf (nomOf c1_spec "http://api.example.com" "/items" "post" c8_op [])] else []) :=
  ⟨by decide,
   (c8_variant_emission_iff c1_spec "http://api.example.com" "/items" "post" c8_op [] (by decide)).1⟩

/-- The keys of a dict, in insertion order. -/
def keysOf (l : SDict α) : List String := l.map Prod.fst

/-- The sum of the per-endpoint totals of a grouping. -/
def sumTotals (gs : SDict EndpointGroup) : Nat := (gs.map (fun kg => kg.2.total)).sum

/-- Looking up the key just written finds the written value. -/
theorem alookup_upsert_self (k : String) (v : α) : ∀ l : SDict α, alookup k (upsert k v l) = some v
  | [] => by simp [upsert, alookup]
  | (k2, v2) :: rest => by
    by_cases h : k2 = k
    · simp [upsert, alookup, h]
    · simp [upsert, alookup, h, alookup_upsert_self k v rest]

/-- Writing one key leaves lookups of other keys unchanged. -/
theorem alookup_upsert_ne (k k2 : String) (v : α) (h : k ≠ k2) :
    ∀ l : SDict α, alookup k2 (upsert k v l) = alookup k2 l
  | [] => by simp [upsert, alookup, h]
  | (k3, v3) :: rest => by
    by_cases h3 : k3 = k
    · subst h3
      simp [upsert, alookup, h]
    · simp [upsert, alookup, h3, alookup_upsert_ne k k2 v h rest]

/-- Writing an absent key appends it: the total sum grows by the new total. -/
theorem sumTotals_upsert_none (k : String) (v : EndpointGroup) :
    ∀ l : SDict EndpointGroup, alookup k l = none → sumTotals (upsert k v l) = sumTotals l + v.total
  | [] => by
    intro _
    simp [upsert, sumTotals]
  | (k2, v2) :: rest => by
    intro h
    by_cases h2 : k2 = k
    · simp [alookup, h2] at h
    · simp only [alookup, h2, if_false] at h
      have ih := sumTotals_upsert_none k v rest h
      simp [upsert, h2, sumTotals] at ih ⊢
      omega

/-- Writing a present key replaces its first binding: the sum exchanges the
old total for the new one. -/
theorem sumTotals_upsert_some (k : String) (v g : EndpointGroup) :
    ∀ l : SDict EndpointGroup, alookup k l = some g →
      sumTotals (upsert k v l) + g.total = sumTotals l + v.total
  | [] => by
    intro h
    simp [alookup] at h
  | (k2, v2) :: rest => by
    intro h
    by_cases h2 : k2 = k
    · simp only [alookup, h2, if_true, Option.some.injEq] at h
      subst h
      simp [upsert, h2, sumTotals]
      omega
    · simp only [alookup, h2, if_false] at h
      have ih := sumTotals_upsert_some k v g rest h
      simp [upsert, h2, sumTotals] at ih ⊢
      omega

/-- Each grouping step accounts exactly one result. -/
theorem sumTotals_report_step (acc : SDict EndpointGroup) (r : ExecResult) :
    sumTotals (report_step acc r) = sumTotals acc + 1 := by
  unfold report_step
  cases h : alookup (endpointKey r) acc with
  | none =>
    simp only [Option.getD_none]
    rw [sumTotals_upsert_none _ _ acc h]
    simp [bumpGroup, emptyGroup]
  | some g =>
    simp only [Option.getD_some]
    have hs := sumTotals_upsert_some (endpointKey r) (bumpGroup r g) g acc h
    simp [bumpGroup] at hs ⊢
    omega

/-- The grouping fold accounts every result exactly once. -/
theorem sumTotals_fold : ∀ (results : List ExecResult) (acc : SDict EndpointGroup),
    sumTotals (results.foldl report_step acc) = sumTotals acc + results.length
  | [], acc => by simp
  | r :: rest, acc => by
    simp only [List.foldl_cons, List.length_cons]
    rw [sumTotals_fold rest (report_step acc r), sumTotals_report_step]
    omega

/-- A grouping step never shrinks the test list of an existing group. -/
theorem report_step_mono (acc : SDict EndpointGroup) (r : ExecResult) (k : String) (g : EndpointGroup)
    (h : alookup k acc = some g) :
    ∃ g2, alookup k (report_step acc r) = some g2 ∧ ∀ x ∈ g.tests, x ∈ g2.tests := by
  by_cases hk : endpointKey r = k
  · subst hk
    refine ⟨bumpGroup r ((alookup (endpointKey r) acc).getD emptyGroup), ?_, ?_⟩
    · simp only [report_step]
      exact alookup_upsert_self _ _ _
    · rw [h]
      intro x hx
      simp [bumpGroup]
      exact Or.inl hx
  · refine ⟨g, ?_, fun x hx => hx⟩
    simp only [report_step]
    rw [alookup_upsert_ne _ _ _ hk, h]

/-- The grouping fold never shrinks the test list of an existing group. -/
theorem report_fold_mono : ∀ (results : List ExecResult) (acc : SDict EndpointGroup) (k : String) (g : EndpointGroup),
    alookup k acc = some g →
    ∃ g2, alookup k (results.foldl report_step acc) = some g2 ∧ ∀ x ∈ g.tests, x ∈ g2.tests
  | [], _, _, g => fun h => ⟨g, h, fun _ hx => hx⟩
  | r :: rest, acc, k, g => fun h => by
    obtain ⟨g1, hg1, hsub1⟩ := report_step_mono acc r k g h
    obtain ⟨g2, hg2, hsub2⟩ := report_fold_mono rest (report_step acc r) k g1 hg1
    exact ⟨g2, hg2, fun x hx => hsub2 x (hsub1 x hx)⟩

/-- Every result folded in ends up in the tests of the group of its endpoint. -/
theorem report_fold_mem : ∀ (results : List ExecResult) (acc : SDict EndpointGroup) (r : ExecResult),
    r ∈ results →
    ∃ g, alookup (endpointKey r) (results.foldl report_step acc) = some g ∧ r ∈ g.tests
  | [], _, r => by
    intro h
    simp at h
  | a :: rest, acc, r => by
    intro hr
    rcases List.mem_cons.mp hr with hra | hr2
    · subst hra
      have h1 : alookup (endpointKey r) (report_step acc r)
          = some (bumpGroup r ((alookup (endpointKey r) acc).getD emptyGroup)) := by
        simp only [report_step]
        exact alookup_upsert_self _ _ _
      obtain ⟨g2, hg2, hsub⟩ := report_fold_mono rest (report_step acc r) (endpointKey r) _ h1
      refine ⟨g2, hg2, hsub r ?_⟩
      simp [bumpGroup]
    · exact report_fold_mem rest (report_step acc a) r hr2

/-- A dict with no binding for a key has that key in no position. -/
theorem alookup_eq_none_iff (k : String) : ∀ l : SDict α, alookup k l = none ↔ k ∉ keysOf l
  | [] => by simp [alookup, keysOf]
  | (k2, v2) :: rest => by
    by_cases h : k2 = k
    · simp [alookup, keysOf, h]
    · have h2 : ¬ k = k2 := fun hh => h hh.symm
      simp [alookup, keysOf, h, h2, alookup_eq_none_iff k rest]

/-- Writing a present key keeps the key sequence. -/
theorem keysOf_upsert_of_mem (k : String) (v : α) : ∀ l : SDict α, k ∈ keysOf l → keysOf (upsert k v l) = keysOf l
  | [], h => by simp [keysOf] at h
  | (k2, v2) :: rest, h => by
    by_cases h2 : k2 = k
    · simp [upsert, keysOf, h2]
    · have hcons : keysOf ((k2, v2) :: rest) = k2 :: keysOf rest := rfl
      have hk : k ∈ keysOf rest := by
        rw [hcons] at h
        rcases List.mem_cons.mp h with h | h
        · exact absurd h.symm h2
        · exact h
      have ih := keysOf_upsert_of_mem k v rest hk
      simp only [upsert, h2, if_false]
      rw [hcons]
      show k2 :: keysOf (upsert k v rest) = k2 :: keysOf rest
      rw [ih]

/-- Writing an absent key appends it to the key sequence. -/
theorem keysOf_upsert_of_not_mem (k : String) (v : α) : ∀ l : SDict α, k ∉ keysOf l → keysOf (upsert k v l) = keysOf l ++ [k]
  | [], _ => by simp [upsert, keysOf]
  | (k2, v2) :: rest, h => by
    have hcons : keysOf ((k2, v2) :: rest) = k2 :: keysOf rest := rfl
    have h2 : ¬ k2 = k := by
      intro hh
      rw [hcons, hh] at h
      exact h (List.mem_cons_self _ _)
    have hk : k ∉ keysOf rest := by
      intro hh
      rw [hcons] at h
      exact h (List.mem_cons_of_mem _ hh)
    have ih := keysOf_upsert_of_not_mem k v rest hk
    simp only [upsert, h2, if_false]
    rw [hcons]
    show k2 :: keysOf (upsert k v rest) = (k2 :: keysOf rest) ++ [k]
    rw [ih]
    rfl

/-- Writes preserve key uniqueness. -/
theorem nodup_keysOf_upsert (k : String) (v : α) (l : SDict α) (h : (keysOf l).Nodup) :
    (keysOf (upsert k v l)).Nodup := by
  by_cases hk : k ∈ keysOf l
  · rw [keysOf_upsert_of_mem k v l hk]
    exact h
  · rw [keysOf_upsert_of_not_mem k v l hk]
    simp [List.nodup_append, h, hk]

/-- The grouping fold preserves key uniqueness. -/
theorem nodup_keysOf_fold : ∀ (results : List ExecResult) (acc : SDict EndpointGroup),
    (keysOf acc).Nodup → (keysOf (results.foldl report_step acc)).Nodup
  | [], _, h => h
  | r :: rest, acc, h =>
    nodup_keysOf_fold rest (report_step acc r)
      (by simp only [report_step]; exact nodup_keysOf_upsert _ _ _ h)

/-- Claim C6 (confirmed): the summary.total of generate_report equals the number
of results, passed plus failed equals total (Errored results have passed
false and land in failed), the per-endpoint totals sum to the summary total,
the endpoint keys are unique, and any two results sharing method and path
land in the same byEndpoint entry. -/
theorem c6_report_aggregation_invariants (results : List ExecResult) :
    (generate_report results).summary.total_tests = results.length
      ∧ (generate_report results).summary.passed_tests + (generate_report results).summary.failed_tests
          = (generate_report results).summary.total_tests
      ∧ sumTotals (generate_report results).endpoint_results = (generate_report results).summary.total_tests
      ∧ (keysOf (generate_report results).endpoint_results).Nodup
      ∧ (∀ r1 r2 : ExecResult, r1 ∈ results → r2 ∈ results → endpointKey r1 = endpointKey r2 →
          ∃ g, alookup (endpointKey r1) (generate_report results).endpoint_results = some g
            ∧ r1 ∈ g.tests ∧ r2 ∈ g.tests) := by
  refine ⟨by simp [generate_report], ?_, ?_, ?_, ?_⟩
  · have hp := List.length_filter_le (fun r => r.passed) results
    simp [generate_report]
    omega
  · have h := sumTotals_fold results []
    simpa [generate_report, sumTotals] using h
  · have h := nodup_keysOf_fold results [] (by simp [keysOf])
    simpa [generate_report] using h
  · intro r1 r2 h1 h2 hkey
    obtain ⟨g, hg, hmem1⟩ := report_fold_mem results [] r1 h1
    obtain ⟨g2, hg2, hmem2⟩ := report_fold_mem results [] r2 h2
    rw [hkey] at hg
    have hgg : g = g2 := Option.some.inj (hg.symm.trans hg2)
    refine ⟨g, ?_, hmem1, ?_⟩
    · rw [hkey]
      simpa [generate_report] using hg
    · rw [hgg]
      exact hmem2

/-- A passing result on POST /items. -/
def res1 : ExecResult :=
  { test_name := "a", path := "/items", method := "POST", status := "Passed", passed := true }

/-- A failing result on the same endpoint. -/
def res2 : ExecResult :=
  { test_name := "b", path := "/items", method := "POST", status := "Failed", passed := false }

/-- Witness for C6: two results sharing POST /items land in one group. -/
theorem c6_report_aggregation_invariants_witness :
    endpointKey res1 = endpointKey res2
      ∧ ∃ g, alookup (endpointKey res1) (generate_report [res1, res2]).endpoint_results = some g
          ∧ res1 ∈ g.tests ∧ res2 ∈ g.tests :=
  ⟨rfl,
   (c6_report_aggregation_invariants [res1, res2]).2.2.2.2 res1 res2 (by decide) (by decide) rfl⟩

/-- Python round(100.0, 2) is 100. -/
theorem pyRound2_100 : pyRound2 100 = 100 := by
  norm_num [pyRound2]

/-- Claim C7 (confirmed): summary.successRatePercent is passed/total*100
rounded to two decimals, is 0 for an empty result sequence, and is 100 when
the sequence is nonempty and every result passed. -/
theorem c7_success_rate_bounds (results : List ExecResult) :
    ((generate_report results).summary.success_rate
        = if results.length = 0 then 0
          else pyRound2 (((generate_report results).summary.passed_tests : ℚ)
                          / ((generate_report results).summary.total_tests : ℚ) * 100))
      ∧ (results = [] → (generate_report results).summary.success_rate = 0)
      ∧ (results ≠ [] → (∀ r ∈ results, r.passed = true) →
          (generate_report results).summary.success_rate = 100) := by
  refine ⟨?_, ?_, ?_⟩
  · by_cases h : results.length = 0
    · simp [generate_report, h]
    · simp [generate_report, h, Nat.pos_of_ne_zero h]
  · intro h
    subst h
    simp [generate_report]
  · intro hne hall
    have hlen : 0 < results.length := List.length_pos.mpr hne
    have hfilter : results.filter (fun r => r.passed) = results :=
      List.filter_eq_self.mpr (fun a ha => hall a ha)
    have hq : (results.length : ℚ) ≠ 0 :=
      Nat.cast_ne_zero.mpr (Nat.pos_iff_ne_zero.mp hlen)
    simp only [generate_report, hfilter, hlen, if_pos hlen]
    rw [div_self hq, one_mul]
    exact pyRound2_100

/-- Witness for C7: a single passed result gives a 100 percent rate. -/
theorem c7_success_rate_bounds_witness :
    ([res1] ≠ ([] : List ExecResult))
      ∧ (generate_report [res1]).summary.success_rate = 100 :=
  ⟨by decide, (c7_success_rate_bounds [res1]).2.2 (by decide) (by decide)⟩

/-- Modelled from the spec (section 4.1): a test case carries an
authRequirement when an apiKey or bearer annotation was recorded on it;
unsupported scheme kinds are silently not annotated.  In the code this is
exactly an auth_type of apiKey or bearer. -/
def carriesAuthRequirement (tc : TestCase) : Bool :=
  tc.auth_type == some "apiKey" || tc.auth_type == some "bearer"

/-- A contract whose only operation is secured by an oauth2 scheme — a
scheme kind the code does not support. -/
def c8_oauth2_spec : ApiSpec :=
  { servers := []
    paths :=
      [("/orders",
        [("get",
          { summary := none
            description := none
            parameters := []
            responses := ["200"]
            security := some [["OAuth2"]]
            requestBody := [] })])]
    securitySchemes :=
      [("OAuth2", { type := some "oauth2", name := none, loc := none, scheme := none })]
    security := none }

/-- Counterexample to claim C8 as stated: for the oauth2-secured operation
the code raises auth_required on the bare scheme name and so emits an
invalid-auth variant, although the nominal case carries no authRequirement
annotation (auth_type, auth_name and auth_in all unset): the claimed
only-if direction fails on the code. -/
theorem c8_counterexample_oauth2_variant_without_annotation :
    ((generate_test_cases c8_oauth2_spec).1.map (fun tc => tc.name))
        = ["GET /orders", "GET /orders - Invalid Authentication"]
      ∧ carriesAuthRequirement ((generate_test_cases c8_oauth2_spec).1.getD 0 dummyCase) = false
      ∧ ((generate_test_cases c8_oauth2_spec).1.getD 0 dummyCase).auth_type = none
      ∧ ((generate_test_cases c8_oauth2_spec).1.getD 0 dummyCase).auth_name = none
      ∧ ((generate_test_cases c8_oauth2_spec).1.getD 0 dummyCase).auth_in = none
      ∧ ((generate_test_cases c8_oauth2_spec).1.getD 0 dummyCase).auth_required = true := by
  decide
